import Mathlib

set_option maxRecDepth 200000
set_option maxHeartbeats 1000000

/-!
Verification of the tool-augmented weather conversation loop
(repository: aimcpserver).

The Python sources are shallowly embedded as pure Lean functions:

* `GroqAgent` models `groq_weather_agent.py` (`GroqWeatherAgent`):
  the static gazetteer `city_coords` / `state_codes`, the rule-based
  classifier `is_weather_query` with its helpers
  `extract_location_from_text` / `extract_state_from_text`, the backend
  dispatcher `get_weather_data`, the reasoning-engine exchange
  `chat_with_groq`, the per-turn orchestration `process_message`, and a
  single step of `chat_loop`.
* `SmartAgent` models `smart_weather_agent.py` (`SmartGroqWeatherAgent`):
  `call_weather_function`, the tool-calling exchange `chat_with_tools`,
  and a single step of its `chat_loop`.
* `SimpleAgent` models `simple_weather_agent.py` (`SimpleWeatherAgent`):
  `parse_simple_query`, `process_query`, and a single step of its
  `chat_loop`.

External collaborators (the Groq completion client and the two weather
MCP functions `get_alerts` / `get_forecast`) are parameters of type
`... → Except String ...`: an `Except.error` value models a raised
Python exception, mirroring the `try`/`except` blocks of the source.
Coordinates are embedded exactly as integers scaled by 10^4 (every
coordinate literal of the source has at most four decimal places).

Python dict literals (which silently keep the last value for a
duplicated key while preserving first-insertion order) are modelled by
`mkDict`; Python's `str.lower`, `str.title`, `str.strip` and the
substring operator `in` are modelled by `pyLower`, `pyTitle`, `pyStrip`
and `strContains`.
-/

namespace Aimcp

/-- Python `str.strip()` whitespace set (ASCII subset relevant here). -/
def pyIsSpace (c : Char) : Bool :=
  c = ' ' || c = '\t' || c = '\n' || c = '\r' || c = '\x0b' || c = '\x0c'

/-- Python `str.strip()`: drop leading and trailing whitespace. -/
def pyStrip (s : String) : String :=
  ⟨((s.data.dropWhile pyIsSpace).reverse.dropWhile pyIsSpace).reverse⟩

/-- Python `str.lower()` (ASCII inputs): character-wise lower-casing,
the same function `String.toLower` applies. -/
def pyLower (s : String) : String := ⟨s.data.map Char.toLower⟩

/-- Helper for `pyTitle`: the Boolean argument records whether the
previous character was alphabetic. -/
def pyTitleAux : Bool → List Char → List Char
  | _, [] => []
  | prevAlpha, c :: cs =>
    (if c.isAlpha then (if prevAlpha then c.toLower else c.toUpper) else c)
      :: pyTitleAux c.isAlpha cs

/-- Python `str.title()` (ASCII inputs): upper-case the first letter of
every alphabetic run, lower-case the rest. -/
def pyTitle (s : String) : String := ⟨pyTitleAux false s.data⟩

/-- `leadsWith pat l`: `pat` is an initial segment of `l` (executable). -/
def leadsWith : List Char → List Char → Bool
  | [], _ => true
  | _ :: _, [] => false
  | p :: ps, h :: hs => (p = h) && leadsWith ps hs

/-- `occursIn pat hay`: `pat` occurs contiguously in `hay` (executable). -/
def occursIn : List Char → List Char → Bool
  | pat, [] => pat.isEmpty
  | pat, h :: hs => leadsWith pat (h :: hs) || occursIn pat hs

/-- Python substring test `pat in hay` (executable). -/
def strContains (hay pat : String) : Bool :=
  occursIn pat.data hay.data

/-- `strIncl pat hay`: the string `pat` occurs contiguously inside
`hay` (propositional form of Python `pat in hay`). -/
def strIncl (pat hay : String) : Prop :=
  ∃ l r : List Char, hay.data = l ++ (pat.data ++ r)

/-- Python list slice `l[-n:]`: the last `n` elements. -/
def pyLastN {α : Type} (n : Nat) (l : List α) : List α :=
  l.drop (l.length - n)

/-- One insertion with Python `dict` semantics: an existing key keeps
its position but its value is overwritten; a new key is appended. -/
def dictInsert {α : Type} (k : String) (v : α) :
    List (String × α) → List (String × α)
  | [] => [(k, v)]
  | (k', v') :: rest =>
    if k' = k then (k', v) :: rest else (k', v') :: dictInsert k v rest

/-- A Python `dict` literal built from its entries in source order:
later duplicate keys silently overwrite earlier ones in place. -/
def mkDict {α : Type} (entries : List (String × α)) : List (String × α) :=
  entries.foldl (fun d kv => dictInsert kv.1 kv.2 d) []

/-- Coordinates (latitude, longitude).  The decimal literals of the
source all have at most four decimal places; they are embedded exactly
as integers scaled by 10^4 (so 38.5816 becomes 385816). -/
abbrev Coord := Int × Int

/-- Message roles used by both agents. -/
inductive Role where
  | system
  | user
  | assistant
  | tool
deriving DecidableEq, Repr

/-- One role-tagged conversation message, as stored in
`conversation_history` and sent to the reasoning engine. -/
structure Turn where
  role : Role
  content : String
deriving DecidableEq, Repr

end Aimcp

namespace Aimcp

namespace GroqAgent

/-- The `city_coords` dict literal of `GroqWeatherAgent.__init__`, as a
list of entries in source order.  The source lists some city names twice
with different coordinates ("columbus", "glendale", "springfield",
"kansas city"); this list keeps both occurrences. -/
def cityCoordsSrc : List (String × Coord) := [
  ("new york", (407128, -740060)),
  ("nyc", (407128, -740060)),
  ("los angeles", (340522, -1182437)),
  ("la", (340522, -1182437)),
  ("chicago", (418781, -876298)),
  ("houston", (297604, -953698)),
  ("philadelphia", (399526, -751652)),
  ("phoenix", (334484, -1120740)),
  ("san antonio", (294241, -984936)),
  ("san diego", (327157, -1171611)),
  ("dallas", (327767, -967970)),
  ("austin", (302672, -977431)),
  ("san jose", (373382, -1218863)),
  ("fort worth", (327555, -973308)),
  ("columbus", (399612, -829988)),
  ("charlotte", (352271, -808431)),
  ("indianapolis", (397684, -861581)),
  ("san francisco", (377749, -1224194)),
  ("seattle", (476062, -1223321)),
  ("denver", (397392, -1049903)),
  ("washington", (389072, -770369)),
  ("washington dc", (389072, -770369)),
  ("dc", (389072, -770369)),
  ("boston", (423601, -710589)),
  ("nashville", (361627, -867816)),
  ("baltimore", (392904, -766122)),
  ("oklahoma city", (354676, -975164)),
  ("portland", (455152, -1226784)),
  ("las vegas", (361699, -1151398)),
  ("milwaukee", (430389, -879065)),
  ("albuquerque", (350844, -1066504)),
  ("tucson", (322226, -1109747)),
  ("fresno", (367378, -1197871)),
  ("sacramento", (385816, -1214944)),
  ("mesa", (334152, -1118315)),
  ("kansas city", (390997, -945786)),
  ("atlanta", (337490, -843880)),
  ("omaha", (412565, -959345)),
  ("colorado springs", (388339, -1048214)),
  ("raleigh", (357796, -786382)),
  ("miami", (257617, -801918)),
  ("cleveland", (414993, -816944)),
  ("tulsa", (361540, -959928)),
  ("minneapolis", (449778, -932650)),
  ("wichita", (376872, -973301)),
  ("arlington", (327357, -971081)),
  ("new orleans", (299511, -900715)),
  ("bakersfield", (353733, -1190187)),
  ("tampa", (279506, -824572)),
  ("honolulu", (213099, -1578581)),
  ("anaheim", (338366, -1179143)),
  ("santa ana", (337455, -1178677)),
  ("corpus christi", (278006, -973964)),
  ("riverside", (339533, -1173961)),
  ("lexington", (380406, -845037)),
  ("pittsburgh", (404406, -799959)),
  ("st. louis", (386270, -901994)),
  ("saint louis", (386270, -901994)),
  ("cincinnati", (391031, -845120)),
  ("anchorage", (612181, -1499003)),
  ("stockton", (379577, -1212908)),
  ("toledo", (416528, -835379)),
  ("st. paul", (449537, -930900)),
  ("saint paul", (449537, -930900)),
  ("newark", (407357, -741724)),
  ("greensboro", (360726, -797920)),
  ("plano", (330198, -966989)),
  ("henderson", (360395, -1149817)),
  ("lincoln", (408136, -967026)),
  ("buffalo", (428864, -788784)),
  ("jersey city", (407178, -740431)),
  ("chula vista", (326401, -1170842)),
  ("fort wayne", (410793, -851394)),
  ("orlando", (285383, -813792)),
  ("st. petersburg", (277676, -826403)),
  ("saint petersburg", (277676, -826403)),
  ("chandler", (333062, -1118413)),
  ("laredo", (275806, -994803)),
  ("norfolk", (369068, -762859)),
  ("durham", (359940, -788986)),
  ("madison", (430731, -894012)),
  ("lubbock", (335779, -1018552)),
  ("irvine", (336846, -1178265)),
  ("winston-salem", (360999, -802442)),
  ("glendale", (335387, -1121860)),
  ("garland", (329126, -966389)),
  ("hialeah", (258576, -802781)),
  ("reno", (395296, -1198138)),
  ("chesapeake", (367682, -762875)),
  ("gilbert", (333528, -1117890)),
  ("baton rouge", (304515, -911871)),
  ("irving", (328140, -969489)),
  ("scottsdale", (334942, -1119261)),
  ("north las vegas", (361989, -1151175)),
  ("fremont", (375485, -1219886)),
  ("boise", (436150, -1162023)),
  ("richmond", (375407, -774360)),
  ("san bernardino", (341083, -1172898)),
  ("birmingham", (335186, -868104)),
  ("spokane", (476587, -1174260)),
  ("rochester", (431566, -776088)),
  ("des moines", (415868, -936250)),
  ("modesto", (376391, -1209969)),
  ("fayetteville", (350527, -788784)),
  ("tacoma", (472529, -1224443)),
  ("oxnard", (341975, -1191771)),
  ("fontana", (340922, -1174350)),
  ("columbus", (324609, -849877)),
  ("montgomery", (323668, -863000)),
  ("moreno valley", (339425, -1172297)),
  ("shreveport", (325252, -937502)),
  ("aurora", (397294, -1048319)),
  ("yonkers", (409312, -738988)),
  ("akron", (410814, -815190)),
  ("huntington beach", (337091, -1180067)),
  ("little rock", (347465, -922896)),
  ("augusta", (334735, -820105)),
  ("amarillo", (352220, -1018313)),
  ("glendale", (341425, -1182551)),
  ("mobile", (306954, -880399)),
  ("grand rapids", (429634, -856681)),
  ("salt lake city", (407608, -1118910)),
  ("tallahassee", (304518, -842807)),
  ("huntsville", (347304, -865861)),
  ("grand prairie", (327460, -969978)),
  ("knoxville", (359606, -839207)),
  ("worcester", (422626, -718023)),
  ("newport news", (370871, -764730)),
  ("brownsville", (259018, -974975)),
  ("overland park", (389822, -946708)),
  ("santa clarita", (343917, -1185426)),
  ("providence", (418240, -714128)),
  ("garden grove", (337739, -1179414)),
  ("chattanooga", (350456, -853097)),
  ("oceanside", (331959, -1173795)),
  ("jackson", (322988, -901848)),
  ("fort lauderdale", (261224, -801373)),
  ("santa rosa", (384404, -1227144)),
  ("rancho cucamonga", (341064, -1175931)),
  ("port st. lucie", (272730, -803582)),
  ("tempe", (334255, -1119400)),
  ("ontario", (340633, -1176509)),
  ("vancouver", (456387, -1226615)),
  ("cape coral", (265629, -819495)),
  ("sioux falls", (435446, -967311)),
  ("springfield", (372153, -932982)),
  ("peoria", (406936, -895890)),
  ("pembroke pines", (260070, -802962)),
  ("elk grove", (384088, -1213716)),
  ("salem", (449429, -1230351)),
  ("lancaster", (346868, -1181542)),
  ("corona", (338753, -1175664)),
  ("eugene", (440521, -1230868)),
  ("palmdale", (345794, -1181165)),
  ("salinas", (366777, -1216555)),
  ("springfield", (397817, -896501)),
  ("pasadena", (341478, -1181445)),
  ("fort collins", (405853, -1050844)),
  ("hayward", (376688, -1220808)),
  ("pomona", (340552, -1177500)),
  ("cary", (357915, -787811)),
  ("rockford", (422711, -890940)),
  ("alexandria", (388048, -770469)),
  ("escondido", (331192, -1170864)),
  ("mckinney", (331973, -966397)),
  ("kansas city", (391142, -946275)),
  ("joliet", (415250, -880817)),
  ("sunnyvale", (373688, -1220363))
]

/-- `self.city_coords`: the Python dict built from `cityCoordsSrc`
(later duplicate keys silently overwrite earlier ones). -/
def city_coords : List (String × Coord) := mkDict cityCoordsSrc

/-- `self.state_codes`: the state-name / state-code dict literal of
`GroqWeatherAgent.__init__` (no duplicate keys). -/
def state_codes : List (String × String) := [
  ("alabama", "AL"),
  ("alaska", "AK"),
  ("arizona", "AZ"),
  ("arkansas", "AR"),
  ("california", "CA"),
  ("ca", "CA"),
  ("colorado", "CO"),
  ("connecticut", "CT"),
  ("delaware", "DE"),
  ("florida", "FL"),
  ("georgia", "GA"),
  ("hawaii", "HI"),
  ("idaho", "ID"),
  ("illinois", "IL"),
  ("indiana", "IN"),
  ("iowa", "IA"),
  ("kansas", "KS"),
  ("kentucky", "KY"),
  ("louisiana", "LA"),
  ("maine", "ME"),
  ("maryland", "MD"),
  ("massachusetts", "MA"),
  ("michigan", "MI"),
  ("minnesota", "MN"),
  ("mississippi", "MS"),
  ("missouri", "MO"),
  ("montana", "MT"),
  ("nebraska", "NE"),
  ("nevada", "NV"),
  ("new hampshire", "NH"),
  ("new jersey", "NJ"),
  ("new mexico", "NM"),
  ("new york", "NY"),
  ("north carolina", "NC"),
  ("north dakota", "ND"),
  ("ohio", "OH"),
  ("oklahoma", "OK"),
  ("oregon", "OR"),
  ("pennsylvania", "PA"),
  ("rhode island", "RI"),
  ("south carolina", "SC"),
  ("south dakota", "SD"),
  ("tennessee", "TN"),
  ("texas", "TX"),
  ("utah", "UT"),
  ("vermont", "VT"),
  ("virginia", "VA"),
  ("washington", "WA"),
  ("west virginia", "WV"),
  ("wisconsin", "WI"),
  ("wyoming", "WY")
]

end GroqAgent

end Aimcp

namespace Aimcp

namespace GroqAgent

/-- Result of `GroqWeatherAgent.is_weather_query`: the Python dicts
`{"type": "alert", ...}`, `{"type": "forecast", ...}`, `{"type": None}`. -/
inductive QueryInfo where
  | alert (state : String)
  | forecast (city : String) (coords : Coord)
  | none
deriving DecidableEq, Repr

/-- `GroqWeatherAgent.extract_location_from_text`: scan `city_coords`
in dict order for a key occurring in the lowercased text; the first
match wins and is reported with `str.title()` capitalisation. -/
def extract_location_from_text (text : String) : Option (String × Coord) :=
  match city_coords.find? (fun kv => strContains (pyLower text) kv.1) with
  | Option.some kv => Option.some (pyTitle kv.1, kv.2)
  | Option.none => Option.none

/-- `GroqWeatherAgent.extract_state_from_text`: scan `state_codes` in
dict order; for each entry first test the state name, then the
lowercased two-letter code, as substrings of the lowercased text. -/
def extract_state_from_text (text : String) : Option String :=
  state_codes.findSome? (fun kv =>
    if strContains (pyLower text) kv.1 then Option.some kv.2
    else if strContains (pyLower text) (pyLower kv.2) then Option.some kv.2
    else Option.none)

/-- The `weather_keywords` list of `is_weather_query`. -/
def weather_keywords : List String :=
  ["weather", "temperature", "temp", "forecast", "rain", "snow",
   "sunny", "cloudy", "hot", "cold", "storm"]

/-- The `alert_keywords` list of `is_weather_query`. -/
def alert_keywords : List String :=
  ["alert", "warning", "watch", "advisory", "severe", "emergency", "danger"]

/-- `has_weather` of `is_weather_query`. -/
def has_weather_kw (text : String) : Bool :=
  weather_keywords.any (fun k => strContains (pyLower text) k)

/-- `has_alert` of `is_weather_query`. -/
def has_alert_kw (text : String) : Bool :=
  alert_keywords.any (fun k => strContains (pyLower text) k)

/-- The guard of the alert branch of `is_weather_query`:
`has_alert or (has_weather and any(word in text for word in ["alert", "warning"]))`. -/
def alert_condition (text : String) : Bool :=
  has_alert_kw text ||
    (has_weather_kw text &&
      (["alert", "warning"].any (fun k => strContains (pyLower text) k)))

/-- The forecast branch of `is_weather_query` (lines 270-277): taken
when the alert branch did not return. -/
def forecast_branch (text : String) : QueryInfo :=
  if has_weather_kw text then
    match extract_location_from_text text with
    | Option.some (city, coords) => QueryInfo.forecast city coords
    | Option.none => QueryInfo.none
  else QueryInfo.none

/-- `GroqWeatherAgent.is_weather_query`.  When the alert guard holds
but no state resolves, control falls through to the forecast branch,
exactly as in the Python source. -/
def is_weather_query (text : String) : QueryInfo :=
  if alert_condition text then
    match extract_state_from_text text with
    | Option.some st => QueryInfo.alert st
    | Option.none => forecast_branch text
  else forecast_branch text

/-- `GroqWeatherAgent.get_weather_data`.  The collaborators `gA`
(`get_alerts`) and `gF` (`get_forecast`) may fail (`Except.error`
models a raised exception); the surrounding `try`/`except` converts any
failure into the apology string. -/
def get_weather_data (gA : String → Except String String)
    (gF : Coord → Except String String) (q : QueryInfo) : String :=
  match q with
  | QueryInfo.alert st =>
    match gA st with
    | Except.ok r => "Weather alerts for " ++ st ++ ":\n" ++ r
    | Except.error e => "Sorry, I couldn\x27t fetch the weather data: " ++ e
  | QueryInfo.forecast city coords =>
    match gF coords with
    | Except.ok r => "Weather forecast for " ++ city ++ ":\n" ++ r
    | Except.error e => "Sorry, I couldn\x27t fetch the weather data: " ++ e
  | QueryInfo.none => "I couldn\x27t process that weather request."

/-- The system message of `chat_with_groq`. -/
def system_message : String :=
  "You are a helpful AI assistant with access to real-time US weather data. \n\nWhen users ask about weather, you can provide current forecasts and alerts for US locations.\nBe conversational, friendly, and helpful. If weather data is provided, incorporate it naturally into your response.\nIf asked about non-US locations, politely explain that you only have access to US weather data.\n\nKeep responses concise but informative."

/-- `recent_history` of `chat_with_groq`:
`self.conversation_history[-10:] if len(self.conversation_history) > 10 else self.conversation_history`. -/
def recent_history (h : List Turn) : List Turn :=
  if h.length > 10 then pyLastN 10 h else h

/-- The current user content of `chat_with_groq`: the raw message,
with the weather data appended when present. -/
def user_content_of (user_message : String) (weather_data : Option String) :
    String :=
  match weather_data with
  | Option.some wd => user_message ++ "\n\nCurrent weather data:\n" ++ wd
  | Option.none => user_message

/-- The `messages` list sent to the Groq completion call: system
message, windowed history, current user message. -/
def build_messages (history : List Turn) (user_content : String) :
    List Turn :=
  (Turn.mk Role.system system_message :: recent_history history)
    ++ [Turn.mk Role.user user_content]

/-- `GroqWeatherAgent.chat_with_groq`.  `engine` is the Groq completion
client; on success the user message and the response are appended to
the history, on failure an apology is returned and the history is left
untouched (the `except` branch returns before the appends). -/
def chat_with_groq (engine : List Turn → Except String String)
    (history : List Turn) (user_message : String)
    (weather_data : Option String) : String × List Turn :=
  match engine (build_messages history (user_content_of user_message weather_data)) with
  | Except.ok response =>
    (response,
      history ++ [Turn.mk Role.user user_message,
                  Turn.mk Role.assistant response])
  | Except.error e =>
    ("Sorry, I\x27m having trouble connecting to my AI brain right now: " ++ e,
      history)

/-- `GroqWeatherAgent.process_message`: classify, fetch weather data if
the query type is truthy, then delegate to `chat_with_groq`. -/
def process_message (gA : String → Except String String)
    (gF : Coord → Except String String)
    (engine : List Turn → Except String String)
    (history : List Turn) (user_message : String) : String × List Turn :=
  let wq := is_weather_query user_message
  let weather_data : Option String :=
    match wq with
    | QueryInfo.none => Option.none
    | q => Option.some (get_weather_data gA gF q)
  chat_with_groq engine history user_message weather_data

/-- Outcome of one iteration of an interactive `chat_loop`. -/
inductive LoopStep where
  | quit
  | skip
  | reply (response : String) (history : List Turn)
deriving DecidableEq, Repr

/-- One iteration of `GroqWeatherAgent.chat_loop`: strip the raw input,
terminate on `quit`/`exit`/`bye`/`q` (lower-cased), skip empty input,
otherwise process the message. -/
def chat_loop_step (gA : String → Except String String)
    (gF : Coord → Except String String)
    (engine : List Turn → Except String String)
    (history : List Turn) (raw : String) : LoopStep :=
  let user_input := pyStrip raw
  if ["quit", "exit", "bye", "q"].contains (pyLower user_input) then
    LoopStep.quit
  else if user_input = "" then LoopStep.skip
  else
    let rh := process_message gA gF engine history user_input
    LoopStep.reply rh.1 rh.2

end GroqAgent

end Aimcp

namespace Aimcp

namespace SmartAgent

/-- A JSON argument value in a tool call (numbers are coordinates,
scaled like `Coord` components). -/
inductive ArgVal where
  | num (x : Int)
  | str (s : String)
deriving DecidableEq, Repr

/-- The parsed `arguments` dict of a tool call. -/
abbrev Args := List (String × ArgVal)

/-- One tool call returned by the reasoning engine
(`tool_call.id`, `tool_call.function.name`, parsed arguments). -/
structure ToolCall where
  id : String
  name : String
  args : Args
deriving DecidableEq, Repr

/-- A message of `SmartGroqWeatherAgent`: role and content, plus the
`tool_calls` field echoed on the intermediate assistant message and the
`tool_call_id` field of tool-result messages. -/
structure Msg where
  role : Role
  content : String
  tool_calls : List ToolCall := []
  tool_call_id : Option String := Option.none
deriving DecidableEq, Repr

/-- The first completion's reply: text content plus the requested tool
calls (empty list when no tool is needed). -/
structure EngineReply where
  content : String
  tool_calls : List ToolCall
deriving DecidableEq, Repr

/-- Python dict access `arguments[k]`: raises `KeyError` (modelled as
`Except.error`) when the key is absent. -/
def argLookup (args : Args) (k : String) : Except String ArgVal :=
  match args.find? (fun kv => kv.1 = k) with
  | Option.some kv => Except.ok kv.2
  | Option.none => Except.error ("KeyError: " ++ k)

/-- Numeric argument access (`arguments["latitude"]` etc.). -/
def argNum (args : Args) (k : String) : Except String Int :=
  match argLookup args k with
  | Except.ok (ArgVal.num x) => Except.ok x
  | Except.ok (ArgVal.str _) => Except.error ("TypeError: " ++ k)
  | Except.error e => Except.error e

/-- String argument access (`arguments["state_code"]` etc.). -/
def argStr (args : Args) (k : String) : Except String String :=
  match argLookup args k with
  | Except.ok (ArgVal.str s) => Except.ok s
  | Except.ok (ArgVal.num _) => Except.error ("TypeError: " ++ k)
  | Except.error e => Except.error e

/-- The body of the `try` block of
`SmartGroqWeatherAgent.call_weather_function`: `Option.none` means that
neither branch matched (the `if`/`elif` fell through). -/
def cwf_body (gA : String → Except String String)
    (gF : Coord → Except String String)
    (function_name : String) (args : Args) :
    Except String (Option String) :=
  if function_name = "get_weather_forecast" then do
    let lat ← argNum args "latitude"
    let lng ← argNum args "longitude"
    let location ← argStr args "location_name"
    let result ← gF (lat, lng)
    pure (Option.some ("Weather forecast for " ++ location ++ ":\n" ++ result))
  else if function_name = "get_weather_alerts" then do
    let state_code ← argStr args "state_code"
    let state_name ← argStr args "state_name"
    let result ← gA state_code
    pure (Option.some ("Weather alerts for " ++ state_name ++ " (" ++
      state_code ++ "):\n" ++ result))
  else pure Option.none

/-- `SmartGroqWeatherAgent.call_weather_function`: the `except` branch
turns any failure into an error string; an unknown function name falls
through to the final return. -/
def call_weather_function (gA : String → Except String String)
    (gF : Coord → Except String String)
    (function_name : String) (args : Args) : String :=
  match cwf_body gA gF function_name args with
  | Except.ok (Option.some s) => s
  | Except.ok Option.none => "Unknown weather function requested"
  | Except.error e => "Error getting weather data: " ++ e

/-- The system message of `chat_with_tools`. -/
def system_message : String :=
  "You are a helpful weather assistant with access to real-time US weather data.\n\nYou have two tools available:\n1. get_weather_forecast: Get detailed weather forecasts using coordinates\n2. get_weather_alerts: Get weather alerts using state codes\n\nWhen users ask about weather:\n- For forecasts: You need latitude/longitude coordinates. Use your knowledge to determine coordinates for US cities.\n- For alerts: You need the 2-letter state code (CA, TX, NY, etc.)\n\nImportant guidelines:\n- Only use tools for US locations (the weather API only covers the US)\n- Be conversational and helpful\n- If you don\x27t know coordinates, make your best estimate or ask the user\n- For non-US locations, politely explain the limitation\n- Always provide the location name when calling forecast tools\n\nExamples:\n- \"Weather in Sacramento\" → Use coordinates ~38.58, -121.49\n- \"Alerts for California\" → Use state code \"CA\"\n- \"Weather in London\" → Explain US-only limitation"

/-- The windowed history slice of `chat_with_tools`:
`if self.conversation_history: messages.extend(self.conversation_history[-10:])`. -/
def history_view (h : List Msg) : List Msg :=
  if h.isEmpty then [] else pyLastN 10 h

/-- The initial `messages` list of `chat_with_tools`: system message,
windowed history, current user message. -/
def build_messages (history : List Msg) (user_message : String) :
    List Msg :=
  (Msg.mk Role.system system_message [] Option.none :: history_view history)
    ++ [Msg.mk Role.user user_message [] Option.none]

/-- `SmartGroqWeatherAgent.chat_with_tools`.  `engineT` is the first
completion call (tools offered), `engine` the second (no tools).  Only
on a fully successful path are the user message and the final content
appended to the history; the `except` branch returns the apology with
the history untouched. -/
def chat_with_tools (gA : String → Except String String)
    (gF : Coord → Except String String)
    (engineT : List Msg → Except String EngineReply)
    (engine : List Msg → Except String String)
    (history : List Msg) (user_message : String) : String × List Msg :=
  let messages := build_messages history user_message
  match engineT messages with
  | Except.error e =>
    ("Sorry, I\x27m having trouble processing your request: " ++ e, history)
  | Except.ok am =>
    if am.tool_calls.isEmpty then
      (am.content,
        history ++ [Msg.mk Role.user user_message [] Option.none,
                    Msg.mk Role.assistant am.content [] Option.none])
    else
      let tool_results := am.tool_calls.map (fun tc =>
        Msg.mk Role.tool (call_weather_function gA gF tc.name tc.args)
          [] (Option.some tc.id))
      let messages2 := messages
        ++ [Msg.mk Role.assistant am.content am.tool_calls Option.none]
        ++ tool_results
      match engine messages2 with
      | Except.error e =>
        ("Sorry, I\x27m having trouble processing your request: " ++ e, history)
      | Except.ok final_content =>
        (final_content,
          history ++ [Msg.mk Role.user user_message [] Option.none,
                      Msg.mk Role.assistant final_content [] Option.none])

/-- Outcome of one iteration of the smart agent's `chat_loop`. -/
inductive LoopStep where
  | quit
  | skip
  | reply (response : String) (history : List Msg)
deriving DecidableEq, Repr

/-- One iteration of `SmartGroqWeatherAgent.chat_loop`: same
termination tokens as the Groq agent (`quit`/`exit`/`bye`/`q`). -/
def chat_loop_step (gA : String → Except String String)
    (gF : Coord → Except String String)
    (engineT : List Msg → Except String EngineReply)
    (engine : List Msg → Except String String)
    (history : List Msg) (raw : String) : LoopStep :=
  let user_input := pyStrip raw
  if ["quit", "exit", "bye", "q"].contains (pyLower user_input) then
    LoopStep.quit
  else if user_input = "" then LoopStep.skip
  else
    let rh := chat_with_tools gA gF engineT engine history user_input
    LoopStep.reply rh.1 rh.2

end SmartAgent

end Aimcp

namespace Aimcp

namespace SimpleAgent

/-- Result of `SimpleWeatherAgent.parse_simple_query` when a query was
recognised (the Python pairs `("alerts", code)` / `("forecast", coords)`). -/
inductive SimpleQuery where
  | alerts (code : String)
  | forecast (coords : Coord)
deriving DecidableEq, Repr

/-- The alert arm of `parse_simple_query` (executed when the text
mentions "alert" or "warning"); returns `Option.none` when none of the
three hard-coded states matches, in which case the Python function
falls through to the forecast checks. -/
def psq_alerts (q : String) : Option SimpleQuery :=
  if strContains q "california" || strContains q "ca" then
    Option.some (SimpleQuery.alerts "CA")
  else if strContains q "texas" || strContains q "tx" then
    Option.some (SimpleQuery.alerts "TX")
  else if strContains q "new york" || strContains q "ny" then
    Option.some (SimpleQuery.alerts "NY")
  else Option.none

/-- The forecast arm of `parse_simple_query`. -/
def psq_forecast (q : String) : Option SimpleQuery :=
  if strContains q "sacramento" then
    Option.some (SimpleQuery.forecast (385816, -1214944))
  else if strContains q "san francisco" then
    Option.some (SimpleQuery.forecast (377749, -1224194))
  else if strContains q "new york" then
    Option.some (SimpleQuery.forecast (407128, -740060))
  else Option.none

/-- `SimpleWeatherAgent.parse_simple_query`. -/
def parse_simple_query (query : String) : Option SimpleQuery :=
  let q := pyLower query
  match (if strContains q "alert" || strContains q "warning" then
           psq_alerts q
         else Option.none) with
  | Option.some r => Option.some r
  | Option.none =>
    if strContains q "forecast" || strContains q "weather" then
      psq_forecast q
    else Option.none

/-- `SimpleWeatherAgent.get_weather_alerts` (error text from the
`except` branch). -/
def get_weather_alerts (gA : String → Except String String)
    (state_code : String) : String :=
  match gA state_code with
  | Except.ok r => r
  | Except.error e => "Error getting alerts: " ++ e

/-- `SimpleWeatherAgent.get_weather_forecast`. -/
def get_weather_forecast (gF : Coord → Except String String)
    (coords : Coord) : String :=
  match gF coords with
  | Except.ok r => r
  | Except.error e => "Error getting forecast: " ++ e

/-- `SimpleWeatherAgent.process_query`. -/
def process_query (gA : String → Except String String)
    (gF : Coord → Except String String) (query : String) : String :=
  match parse_simple_query query with
  | Option.some (SimpleQuery.alerts code) =>
    "🚨 Weather Alerts for " ++ code ++ ":\n\n" ++ get_weather_alerts gA code
  | Option.some (SimpleQuery.forecast coords) =>
    "📊 Weather Forecast:\n\n" ++ get_weather_forecast gF coords
  | Option.none =>
    "❓ I can help with:\n• Weather alerts (e.g., \x27alerts for California\x27)\n• Weather forecasts (e.g., \x27weather in Sacramento\x27)"

/-- Outcome of one iteration of the simple agent's `chat_loop`. -/
inductive LoopStep where
  | quit
  | skip
  | reply (response : String)
deriving DecidableEq, Repr

/-- One iteration of `SimpleWeatherAgent.chat_loop`.  Note the
termination token list is `["quit", "exit", "bye"]`: unlike the other
two agents it does not include `"q"`. -/
def chat_loop_step (gA : String → Except String String)
    (gF : Coord → Except String String) (raw : String) : LoopStep :=
  let query := pyStrip raw
  if ["quit", "exit", "bye"].contains (pyLower query) then LoopStep.quit
  else if query = "" then LoopStep.skip
  else LoopStep.reply (process_query gA gF query)

end SimpleAgent

end Aimcp

namespace Aimcp

/-! ## Concrete collaborator stubs (used by witnesses and counterexamples) -/

/-- An alerts backend that always returns the literal `"No active alerts"`. -/
def gaOk : String → Except String String := fun _ => Except.ok "No active alerts"

/-- A forecast backend that always succeeds. -/
def gfOk : Coord → Except String String := fun _ => Except.ok "Sunny"

/-- An alerts backend that always raises. -/
def gaDown : String → Except String String := fun _ => Except.error "network down"

/-- A reasoning engine that always answers with a fixed text. -/
def engChat : List Turn → Except String String :=
  fun _ => Except.ok "All clear: No active alerts"

/-- A reasoning engine that always raises. -/
def engDown : List Turn → Except String String := fun _ => Except.error "boom"

/-- A first-pass smart-agent engine that always requests one alerts
tool call for California. -/
def engSmartTool : List SmartAgent.Msg → Except String SmartAgent.EngineReply :=
  fun _ => Except.ok (SmartAgent.EngineReply.mk ""
    [SmartAgent.ToolCall.mk "call_1" "get_weather_alerts"
      [("state_code", SmartAgent.ArgVal.str "CA"),
       ("state_name", SmartAgent.ArgVal.str "California")]])

/-- A second-pass smart-agent engine with a fixed reply. -/
def engSmart2 : List SmartAgent.Msg → Except String String :=
  fun _ => Except.ok "California currently has no active alerts."

/-- A reasoning engine that succeeds but ignores its input entirely,
always replying with the bare text "OK". -/
def engOK : List Turn → Except String String := fun _ => Except.ok "OK"

/-- A reasoning engine that succeeds and echoes the content of every
message it was sent (so it incorporates the user content, as the
system prompt instructs real engines to do). -/
def engEcho : List Turn → Except String String :=
  fun msgs => Except.ok (String.join (msgs.map Turn.content))

/-! ## String-occurrence kit -/

theorem strData_append (a b : String) : (a ++ b).data = a.data ++ b.data := rfl

theorem strIncl_concat_left {p x : String} (y : String) (h : strIncl p x) :
    strIncl p (x ++ y) := by
  obtain ⟨l, r, hx⟩ := h
  exact ⟨l, r ++ y.data, by rw [strData_append, hx]; simp⟩

theorem strIncl_concat_right {p y : String} (x : String) (h : strIncl p y) :
    strIncl p (x ++ y) := by
  obtain ⟨l, r, hy⟩ := h
  exact ⟨x.data ++ l, r, by rw [strData_append, hy]; simp⟩

theorem strIncl_trans {p m hay : String} (h1 : strIncl p m)
    (h2 : strIncl m hay) : strIncl p hay := by
  obtain ⟨l1, r1, hm⟩ := h1
  obtain ⟨l2, r2, hh⟩ := h2
  exact ⟨l2 ++ l1, r1 ++ r2, by rw [hh, hm]; simp⟩

theorem strIncl_self (p : String) : strIncl p p := ⟨[], [], by simp⟩

theorem strIncl_foldl_append (t : List String) :
    ∀ (acc p : String), strIncl p acc →
      strIncl p (t.foldl (fun r s => r ++ s) acc) := by
  induction t with
  | nil => intro acc p h; simpa using h
  | cons a t ih => intro acc p h; exact ih (acc ++ a) p (strIncl_concat_left a h)

theorem strIncl_foldl_mem (l : List String) :
    ∀ (acc s : String), s ∈ l →
      strIncl s (l.foldl (fun r t => r ++ t) acc) := by
  induction l with
  | nil => intro acc s h; cases h
  | cons a t ih =>
    intro acc s hs
    rcases List.mem_cons.mp hs with rfl | hs
    · exact strIncl_foldl_append t (acc ++ s) s
        (strIncl_concat_right acc (strIncl_self s))
    · exact ih (acc ++ a) s hs

theorem strIncl_join (l : List String) (s : String) (hs : s ∈ l) :
    strIncl s (String.join l) :=
  strIncl_foldl_mem l "" s hs

/-- The echo engine incorporates every message's content — in
particular every user message's content — into its reply. -/
theorem engEcho_incorporates : ∀ msgs r, engEcho msgs = Except.ok r →
    ∀ m ∈ msgs, m.role = Role.user → strIncl m.content r := by
  intro msgs r hok m hm _
  have hr : r = String.join (msgs.map Turn.content) := by
    have := hok
    simp only [engEcho, Except.ok.injEq] at this
    exact this.symm
  rw [hr]
  exact strIncl_join _ _ (List.mem_map_of_mem Turn.content hm)

/-- `"Sorry"` starts the backend-failure apology of `get_weather_data`. -/
theorem sorry_in_backend_apology (e : String) :
    strIncl "Sorry" ("Sorry, I couldn\x27t fetch the weather data: " ++ e) :=
  strIncl_concat_left e
    ⟨[], ", I couldn\x27t fetch the weather data: ".data, by decide⟩

/-- `"Sorry"` starts the engine-failure apology of `chat_with_groq`. -/
theorem sorry_in_engine_apology (e : String) :
    strIncl "Sorry"
      ("Sorry, I\x27m having trouble connecting to my AI brain right now: " ++ e) :=
  strIncl_concat_left e
    ⟨[], ", I\x27m having trouble connecting to my AI brain right now: ".data,
      by decide⟩

/-! ## Window and history helpers -/

theorem pyLastN_length_le {α : Type} (n : Nat) (l : List α) :
    (pyLastN n l).length ≤ n := by
  simp only [pyLastN, List.length_drop]
  omega

theorem pyLastN_isSfx {α : Type} (n : Nat) (l : List α) :
    pyLastN n l <:+ l :=
  List.drop_suffix _ _

theorem recent_history_length_le (h : List Turn) :
    (GroqAgent.recent_history h).length ≤ 10 := by
  unfold GroqAgent.recent_history
  split
  · exact pyLastN_length_le 10 h
  · omega

theorem recent_history_isSfx (h : List Turn) :
    GroqAgent.recent_history h <:+ h := by
  unfold GroqAgent.recent_history
  split
  · exact pyLastN_isSfx 10 h
  · exact List.suffix_rfl

theorem history_view_length_le (h : List SmartAgent.Msg) :
    (SmartAgent.history_view h).length ≤ 10 := by
  unfold SmartAgent.history_view
  split
  · simp
  · exact pyLastN_length_le 10 h

theorem history_view_isSfx (h : List SmartAgent.Msg) :
    SmartAgent.history_view h <:+ h := by
  unfold SmartAgent.history_view
  split
  · exact List.nil_suffix
  · exact pyLastN_isSfx 10 h

/-- `chat_with_groq` only ever appends to the history. -/
theorem chat_with_groq_extends (engine : List Turn → Except String String)
    (h : List Turn) (u : String) (wd : Option String) :
    ∃ tail, (GroqAgent.chat_with_groq engine h u wd).2 = h ++ tail := by
  unfold GroqAgent.chat_with_groq
  cases engine (GroqAgent.build_messages h (GroqAgent.user_content_of u wd)) with
  | ok r => exact ⟨_, rfl⟩
  | error e => exact ⟨[], by simp⟩

/-- `chat_with_tools` only ever appends to the history. -/
theorem chat_with_tools_extends (gA : String → Except String String)
    (gF : Coord → Except String String)
    (engineT : List SmartAgent.Msg → Except String SmartAgent.EngineReply)
    (engine : List SmartAgent.Msg → Except String String)
    (h : List SmartAgent.Msg) (u : String) :
    ∃ tail, (SmartAgent.chat_with_tools gA gF engineT engine h u).2 = h ++ tail := by
  unfold SmartAgent.chat_with_tools
  simp only []
  split
  · exact ⟨[], by simp⟩
  · split
    · exact ⟨_, rfl⟩
    · split
      · exact ⟨[], by simp⟩
      · exact ⟨_, rfl⟩

end Aimcp

namespace Aimcp

/-! ## Classifier helpers -/

/-- The forecast branch never produces an alert intent. -/
theorem forecast_branch_ne_alert (u st : String) :
    GroqAgent.forecast_branch u ≠ GroqAgent.QueryInfo.alert st := by
  unfold GroqAgent.forecast_branch
  split
  · split <;> simp_all
  · simp

/-- Substring-based region resolution: any text whose lowercase form
contains the letter pair "al" resolves to Alabama, because
`("alabama", "AL")` is the first entry of `state_codes` and the
two-letter code is tested as a bare substring. -/
theorem extract_state_al (u : String)
    (hal : strContains (pyLower u) "al" = true) :
    GroqAgent.extract_state_from_text u = Option.some "AL" := by
  unfold GroqAgent.extract_state_from_text GroqAgent.state_codes
  rw [List.findSome?_cons]
  by_cases h : strContains (pyLower u) "alabama" = true
  · simp [h]
  · have hlow : pyLower "AL" = "al" := by decide
    simp only [Bool.not_eq_true] at h
    simp [h, hlow, hal]

/-! ## Python-dict key helpers -/

theorem dictInsert_map_fst {α : Type} (k : String) (v : α)
    (d : List (String × α)) :
    (dictInsert k v d).map Prod.fst =
      if k ∈ d.map Prod.fst then d.map Prod.fst
      else d.map Prod.fst ++ [k] := by
  induction d with
  | nil => simp [dictInsert]
  | cons hd tl ih =>
    obtain ⟨k', v'⟩ := hd
    by_cases hk : k' = k
    · subst hk
      simp [dictInsert]
    · have hk' : ¬ (k = k') := fun h => hk h.symm
      by_cases hmem : k ∈ tl.map Prod.fst
      · simp [dictInsert, hk, ih, hmem, hk']
      · simp [dictInsert, hk, ih, hmem, hk']

/-- Folding Python-dict insertions preserves key distinctness. -/
theorem foldl_dictInsert_keys_nodup {α : Type} (l : List (String × α)) :
    ∀ d : List (String × α), (d.map Prod.fst).Nodup →
      (((l.foldl (fun d kv => dictInsert kv.1 kv.2 d) d)).map Prod.fst).Nodup := by
  induction l with
  | nil => intro d hd; simpa using hd
  | cons hd' tl ih =>
    intro d hd
    refine ih (dictInsert hd'.1 hd'.2 d) ?_
    rw [dictInsert_map_fst]
    split
    · exact hd
    · rename_i hnm
      simp only [List.nodup_append, List.nodup_singleton]
      exact ⟨hd, trivial, by simpa using fun h => hnm h⟩

/-- A Python dict literal has pairwise-distinct keys, whatever
duplicates its entry list contained. -/
theorem mkDict_keys_nodup {α : Type} (entries : List (String × α)) :
    ((mkDict entries).map Prod.fst).Nodup :=
  foldl_dictInsert_keys_nodup entries [] (by simp)

end Aimcp

namespace Aimcp

/-! ## Claim theorems -/

/-- C2: the message view serialized for the reasoning engine contains
at most the fixed window of 10 most recent conversation-history turns,
oldest-first (the window is an order-preserving suffix of the full
history), in both the Groq agent (`recent_history`, used by
`build_messages`/`chat_with_groq`) and the smart agent
(`history_view`, used by its `build_messages`/`chat_with_tools`);
meanwhile the full underlying history is never truncated: one turn of
either agent only ever appends to it. -/
theorem history_window_bounded_and_log_append_only
    (gA : String → Except String String) (gF : Coord → Except String String)
    (engine : List Turn → Except String String)
    (engineT : List SmartAgent.Msg → Except String SmartAgent.EngineReply)
    (engine2 : List SmartAgent.Msg → Except String String)
    (h : List Turn) (hs : List SmartAgent.Msg) (u : String)
    (wd : Option String) :
    (GroqAgent.recent_history h).length ≤ 10 ∧
    GroqAgent.recent_history h <:+ h ∧
    (SmartAgent.history_view hs).length ≤ 10 ∧
    SmartAgent.history_view hs <:+ hs ∧
    (∃ tail, (GroqAgent.chat_with_groq engine h u wd).2 = h ++ tail) ∧
    (∃ tail, (SmartAgent.chat_with_tools gA gF engineT engine2 hs u).2 =
      hs ++ tail) :=
  ⟨recent_history_length_le h, recent_history_isSfx h,
   history_view_length_le hs, history_view_isSfx hs,
   chat_with_groq_extends engine h u wd,
   chat_with_tools_extends gA gF engineT engine2 hs u⟩

/-- C4 counterexample: the user utterance is NOT appended to the
conversation state before the reasoning-engine call.  With an engine
that raises (`engDown`), the turn for input "hello" ends with an
apology and an UNCHANGED (empty) history: the accepted user input is
lost, contradicting the claimed immediate, unconditional append. -/
theorem user_turn_lost_on_engine_failure :
    GroqAgent.process_message gaOk gfOk engDown [] "hello" =
      ("Sorry, I\x27m having trouble connecting to my AI brain right now: boom",
        []) := by
  decide

/-- C4 amended: the user Turn is appended only at the end of a
successful reasoning-engine call, together with the assistant Turn in
the same update; if the engine call fails, no Turn at all is appended
and the user utterance is absent from the history. -/
theorem user_turn_persisted_only_with_assistant_turn
    (engine : List Turn → Except String String)
    (h : List Turn) (u : String) (wd : Option String) :
    (∃ r, engine (GroqAgent.build_messages h (GroqAgent.user_content_of u wd)) =
        Except.ok r ∧
      GroqAgent.chat_with_groq engine h u wd =
        (r, h ++ [Turn.mk Role.user u, Turn.mk Role.assistant r])) ∨
    (∃ e, engine (GroqAgent.build_messages h (GroqAgent.user_content_of u wd)) =
        Except.error e ∧
      GroqAgent.chat_with_groq engine h u wd =
        ("Sorry, I\x27m having trouble connecting to my AI brain right now: " ++ e,
          h)) := by
  unfold GroqAgent.chat_with_groq
  cases hE : engine (GroqAgent.build_messages h (GroqAgent.user_content_of u wd)) with
  | ok r => exact Or.inl ⟨r, rfl, rfl⟩
  | error e => exact Or.inr ⟨e, rfl, rfl⟩

end Aimcp

namespace Aimcp

/-- C3 counterexample: for input "alerts for California" (classified as
an alert query, so a weather tool is invoked) with backend literal
`"No active alerts"` and a successful engine, the completed turn leaves
EXACTLY 2 new Turns in the conversation state — a `user` Turn and an
`assistant` Turn — not the claimed 3: no `tool` Turn is persisted. -/
theorem tool_turn_count_is_two_not_three :
    GroqAgent.process_message gaOk gfOk engChat [] "alerts for California" =
      ("All clear: No active alerts",
        [Turn.mk Role.user "alerts for California",
         Turn.mk Role.assistant "All clear: No active alerts"]) ∧
    (GroqAgent.process_message gaOk gfOk engChat []
        "alerts for California").2.length = 2 := by
  constructor
  · decide
  · decide

/-- C3 amended: after a turn in which a weather tool was invoked
completes successfully, the conversation state contains exactly 2 new
Turns — `user` then `assistant`, in that order — in both agents.  The
tool result is not persisted as a Turn of its own: the Groq agent folds
it into the engine-bound user content, the smart agent keeps the tool
messages only in the per-call message list. -/
theorem completed_tool_turn_appends_user_then_assistant
    (gA : String → Except String String) (gF : Coord → Except String String)
    (engine : List Turn → Except String String) (r : String)
    (heng : ∀ msgs, engine msgs = Except.ok r)
    (h : List Turn) (u : String)
    (hq : GroqAgent.is_weather_query u ≠ GroqAgent.QueryInfo.none)
    (gA2 : String → Except String String) (gF2 : Coord → Except String String)
    (engineT : List SmartAgent.Msg → Except String SmartAgent.EngineReply)
    (engine2 : List SmartAgent.Msg → Except String String)
    (am : SmartAgent.EngineReply) (f : String)
    (hT : ∀ msgs, engineT msgs = Except.ok am)
    (htc : am.tool_calls ≠ [])
    (h2 : ∀ msgs, engine2 msgs = Except.ok f)
    (hs : List SmartAgent.Msg) :
    (GroqAgent.process_message gA gF engine h u).2 =
      h ++ [Turn.mk Role.user u, Turn.mk Role.assistant r] ∧
    ((GroqAgent.process_message gA gF engine h u).2.drop h.length).map
      Turn.role = [Role.user, Role.assistant] ∧
    (SmartAgent.chat_with_tools gA2 gF2 engineT engine2 hs u).2 =
      hs ++ [SmartAgent.Msg.mk Role.user u [] Option.none,
             SmartAgent.Msg.mk Role.assistant f [] Option.none] ∧
    ((SmartAgent.chat_with_tools gA2 gF2 engineT engine2 hs u).2.drop
      hs.length).map SmartAgent.Msg.role = [Role.user, Role.assistant] := by
  have hg : (GroqAgent.process_message gA gF engine h u).2 =
      h ++ [Turn.mk Role.user u, Turn.mk Role.assistant r] := by
    unfold GroqAgent.process_message GroqAgent.chat_with_groq
    simp only [heng]
  have htcb : am.tool_calls.isEmpty = false := by
    cases hl : am.tool_calls with
    | nil => exact absurd hl htc
    | cons a l => rfl
  have hsm : (SmartAgent.chat_with_tools gA2 gF2 engineT engine2 hs u).2 =
      hs ++ [SmartAgent.Msg.mk Role.user u [] Option.none,
             SmartAgent.Msg.mk Role.assistant f [] Option.none] := by
    unfold SmartAgent.chat_with_tools
    simp only [hT, htcb, Bool.false_eq_true, if_false, h2]
  refine ⟨hg, ?_, hsm, ?_⟩
  · rw [hg, List.drop_left]
    simp
  · rw [hsm, List.drop_left]
    simp

/-- C3 witness: the amended theorem applied to the round-trip scenario
input "alerts for California" with concrete collaborators. -/
theorem completed_tool_turn_appends_user_then_assistant_witness :
    GroqAgent.is_weather_query "alerts for California" ≠
      GroqAgent.QueryInfo.none ∧
    (GroqAgent.process_message gaOk gfOk engChat [] "alerts for California").2 =
      [Turn.mk Role.user "alerts for California",
       Turn.mk Role.assistant "All clear: No active alerts"] :=
  ⟨by decide,
    (completed_tool_turn_appends_user_then_assistant gaOk gfOk engChat
      "All clear: No active alerts" (fun _ => rfl) [] "alerts for California"
      (by decide) gaOk gfOk engSmartTool engSmart2
      (SmartAgent.EngineReply.mk ""
        [SmartAgent.ToolCall.mk "call_1" "get_weather_alerts"
          [("state_code", SmartAgent.ArgVal.str "CA"),
           ("state_name", SmartAgent.ArgVal.str "California")]])
      "California currently has no active alerts." (fun _ => rfl)
      (by decide) (fun _ => rfl) []).1⟩

end Aimcp

namespace Aimcp

/-- If the reasoning engine incorporates the user-message content into
its successful replies, then a turn of `chat_with_groq` whose weather
data contains "Sorry" yields a reply containing "Sorry" — on the
engine-success path because the weather data rides inside the user
content, on the engine-failure path because of the engine apology. -/
theorem chat_with_groq_reply_has_apology (engine : List Turn → Except String String)
    (h : List Turn) (u wd : String)
    (heng : ∀ msgs r, engine msgs = Except.ok r →
      ∀ m ∈ msgs, m.role = Role.user → strIncl m.content r)
    (hwd : strIncl "Sorry" wd) :
    strIncl "Sorry"
      (GroqAgent.chat_with_groq engine h u (Option.some wd)).1 := by
  unfold GroqAgent.chat_with_groq
  cases hE : engine (GroqAgent.build_messages h
      (GroqAgent.user_content_of u (Option.some wd))) with
  | ok r =>
    have hm : Turn.mk Role.user (GroqAgent.user_content_of u (Option.some wd)) ∈
        GroqAgent.build_messages h (GroqAgent.user_content_of u (Option.some wd)) := by
      unfold GroqAgent.build_messages
      simp
    have huc := heng _ r hE _ hm rfl
    have hsor : strIncl "Sorry" (GroqAgent.user_content_of u (Option.some wd)) :=
      strIncl_concat_right (u ++ "\n\nCurrent weather data:\n") hwd
    exact strIncl_trans hsor huc
  | error e =>
    exact sorry_in_engine_apology e

/-- C5 counterexample: the claimed apology-in-reply fails on the code.
For input "alerts for California" (an alert query) with an alerts
backend that raises, a SUCCESSFUL engine that ignores its input and
replies "OK" makes the completed turn's visible reply exactly "OK",
which contains no apology: the backend apology string only rides inside
the engine-bound user content, never reaching the reply on its own. -/
theorem backend_error_reply_may_lack_apology :
    gaDown "AL" = Except.error "network down" ∧
    GroqAgent.is_weather_query "alerts for California" =
      GroqAgent.QueryInfo.alert "AL" ∧
    (GroqAgent.process_message gaDown gfOk engOK []
      "alerts for California").1 = "OK" ∧
    ¬ strIncl "Sorry"
      (GroqAgent.process_message gaDown gfOk engOK []
        "alerts for California").1 := by
  have h1 : (GroqAgent.process_message gaDown gfOk engOK []
      "alerts for California").1 = "OK" := by decide
  refine ⟨rfl, by decide, h1, ?_⟩
  rw [h1]
  rintro ⟨l, r, hlr⟩
  have hlen : ("OK".data).length = (l ++ ("Sorry".data ++ r)).length := by
    rw [hlr]
  have h2 : ("OK".data).length = 2 := by decide
  have h5 : ("Sorry".data).length = 5 := by decide
  rw [h2, List.length_append, List.length_append, h5] at hlen
  omega

/-- C5 amended: for every turn whose weather-backend fetch fails (the
`get_alerts`/`get_forecast` call raises), the turn still completes, no
exception escapes (`process_message` is total in the embedding), and
the conversation state is only ever extended, never corrupted, so the
session remains usable for the next turn; the failure is absorbed into
an apologetic string ("Sorry, I couldn\x27t fetch the weather data: ...")
passed to the reasoning engine inside the turn's user content — but
that apology reaches the user-visible reply only when the engine
incorporates its user-message content into successful replies (as the
system prompt instructs) or the engine call itself fails (yielding the
engine apology); a successful engine that ignores the weather data can
reply without any apology. -/
theorem backend_error_absorbed_turn_completes
    (gA : String → Except String String) (gF : Coord → Except String String)
    (engine : List Turn → Except String String)
    (h : List Turn) (u : String)
    (hfail :
      (∃ st e, GroqAgent.is_weather_query u = GroqAgent.QueryInfo.alert st ∧
        gA st = Except.error e) ∨
      (∃ c coords e,
        GroqAgent.is_weather_query u = GroqAgent.QueryInfo.forecast c coords ∧
        gF coords = Except.error e)) :
    (∃ tail, (GroqAgent.process_message gA gF engine h u).2 = h ++ tail) ∧
    (∃ wd, strIncl "Sorry" wd ∧
      GroqAgent.process_message gA gF engine h u =
        GroqAgent.chat_with_groq engine h u (Option.some wd)) ∧
    ((∀ msgs r, engine msgs = Except.ok r →
        ∀ m ∈ msgs, m.role = Role.user → strIncl m.content r) →
      strIncl "Sorry" (GroqAgent.process_message gA gF engine h u).1) := by
  have hred : ∃ wd, strIncl "Sorry" wd ∧
      GroqAgent.process_message gA gF engine h u =
        GroqAgent.chat_with_groq engine h u (Option.some wd) := by
    rcases hfail with ⟨st, e, hwq, hga⟩ | ⟨c, coords, e, hwq, hgf⟩
    · refine ⟨_, sorry_in_backend_apology e, ?_⟩
      unfold GroqAgent.process_message
      simp only [hwq, GroqAgent.get_weather_data, hga]
    · refine ⟨_, sorry_in_backend_apology e, ?_⟩
      unfold GroqAgent.process_message
      simp only [hwq, GroqAgent.get_weather_data, hgf]
  obtain ⟨wd, hwd, heq⟩ := hred
  refine ⟨?_, ⟨wd, hwd, heq⟩, fun heng => ?_⟩
  · rw [heq]
    exact chat_with_groq_extends engine h u _
  · rw [heq]
    exact chat_with_groq_reply_has_apology engine h u wd heng hwd

/-- C5 witness: input "alerts for California" with an alerts backend
that raises and the echo engine — which SUCCEEDS and genuinely
incorporates the user content — so the completed turn's reply does
contain "Sorry" (via the backend apology riding in the user content),
and the history is only extended. -/
theorem backend_error_absorbed_turn_completes_witness :
    GroqAgent.is_weather_query "alerts for California" =
      GroqAgent.QueryInfo.alert "AL" ∧
    gaDown "AL" = Except.error "network down" ∧
    strIncl "Sorry"
      (GroqAgent.process_message gaDown gfOk engEcho []
        "alerts for California").1 ∧
    ∃ tail, (GroqAgent.process_message gaDown gfOk engEcho []
      "alerts for California").2 = [] ++ tail :=
  ⟨by decide, rfl,
    (backend_error_absorbed_turn_completes gaDown gfOk engEcho []
      "alerts for California"
      (Or.inl ⟨"AL", "network down", by decide, rfl⟩)).2.2
      engEcho_incorporates,
    (backend_error_absorbed_turn_completes gaDown gfOk engEcho []
      "alerts for California"
      (Or.inl ⟨"AL", "network down", by decide, rfl⟩)).1⟩

end Aimcp

namespace Aimcp

/-- C1 counterexample: "alerts for California" contains the alert
keyword "alert" and the resolvable region "california", yet the
classifier returns region code AL — the letter pair "al" inside
"alerts" matches Alabama first — not the claimed CA; and
"any storms in Texas?" (claimed to be an alert intent for TX) contains
no alert keyword ("storm" is a weather keyword) and no known city, so
it classifies as no intent at all. -/
theorem alert_region_resolution_counterexample :
    GroqAgent.is_weather_query "alerts for California" =
      GroqAgent.QueryInfo.alert "AL" ∧
    GroqAgent.is_weather_query "alerts for California" ≠
      GroqAgent.QueryInfo.alert "CA" ∧
    GroqAgent.is_weather_query "any storms in Texas?" =
      GroqAgent.QueryInfo.none := by
  refine ⟨by decide, by decide, by decide⟩

/-- C1 amended: for every utterance satisfying the alert guard whose
region resolution succeeds, the classifier returns an alert intent
carrying the code produced by substring-based resolution — the first
`state_codes` entry whose name or lowercased two-letter code occurs in
the lowercased utterance — which need not be the region named in the
utterance ("alerts for California" yields AL, because "al" occurs in
"alerts"); and "any storms in Texas?" contains no alert keyword, so it
yields no intent rather than an alert intent. -/
theorem alert_intent_carries_substring_resolved_code (u st : String)
    (halert : GroqAgent.alert_condition u = true)
    (hst : GroqAgent.extract_state_from_text u = Option.some st) :
    GroqAgent.is_weather_query u = GroqAgent.QueryInfo.alert st := by
  unfold GroqAgent.is_weather_query
  simp [halert, hst]

/-- C1 witness: the amended theorem applied to "alerts for California",
whose substring-resolved region code is AL. -/
theorem alert_intent_carries_substring_resolved_code_witness :
    GroqAgent.alert_condition "alerts for California" = true ∧
    GroqAgent.extract_state_from_text "alerts for California" =
      Option.some "AL" ∧
    GroqAgent.is_weather_query "alerts for California" =
      GroqAgent.QueryInfo.alert "AL" :=
  ⟨by decide, by decide,
    alert_intent_carries_substring_resolved_code "alerts for California" "AL"
      (by decide) (by decide)⟩

/-- C6 counterexample: "danger weather houston" contains the alert
keyword "danger" and its region resolution fails, yet the classifier
does not return the None intent: it falls through to the weather branch
and returns a forecast intent for Houston. -/
theorem alert_without_region_counterexample :
    GroqAgent.has_alert_kw "danger weather houston" = true ∧
    GroqAgent.extract_state_from_text "danger weather houston" =
      Option.none ∧
    GroqAgent.is_weather_query "danger weather houston" =
      GroqAgent.QueryInfo.forecast "Houston" (297604, -953698) := by
  refine ⟨by decide, by decide, by decide⟩

/-- C6 amended: when the alert guard holds but region resolution fails,
the classifier never returns an alert (and in particular no
partial/error alert result); instead classification falls through to
the weather branch (`forecast_branch`): a forecast intent when a
weather keyword and a resolvable place are present, the None intent
otherwise. -/
theorem alert_without_region_falls_through (u : String)
    (halert : GroqAgent.alert_condition u = true)
    (hst : GroqAgent.extract_state_from_text u = Option.none) :
    GroqAgent.is_weather_query u = GroqAgent.forecast_branch u ∧
    ∀ st, GroqAgent.is_weather_query u ≠ GroqAgent.QueryInfo.alert st := by
  have h1 : GroqAgent.is_weather_query u = GroqAgent.forecast_branch u := by
    unfold GroqAgent.is_weather_query
    simp [halert, hst]
  exact ⟨h1, fun st => h1 ▸ forecast_branch_ne_alert u st⟩

/-- C6 witness: the amended theorem applied to "danger weather houston". -/
theorem alert_without_region_falls_through_witness :
    GroqAgent.alert_condition "danger weather houston" = true ∧
    GroqAgent.extract_state_from_text "danger weather houston" =
      Option.none ∧
    GroqAgent.is_weather_query "danger weather houston" =
      GroqAgent.forecast_branch "danger weather houston" :=
  ⟨by decide, by decide,
    (alert_without_region_falls_through "danger weather houston"
      (by decide) (by decide)).1⟩

/-- C7 counterexample: "weather warning in houston" contains the
weather keyword "weather" and the resolvable place "houston", yet the
classifier does not return a forecast intent: the alert branch fires
first ("warning" is an alert keyword and "ar" inside "warning" resolves
to Arkansas), producing an alert intent for AR. -/
theorem forecast_preempted_by_alert_counterexample :
    GroqAgent.has_weather_kw "weather warning in houston" = true ∧
    GroqAgent.extract_location_from_text "weather warning in houston" =
      Option.some ("Houston", (297604, -953698)) ∧
    GroqAgent.is_weather_query "weather warning in houston" =
      GroqAgent.QueryInfo.alert "AR" := by
  refine ⟨by decide, by decide, by decide⟩

/-- C7 amended: for every utterance containing a weather keyword whose
place resolution succeeds, the classifier returns a forecast intent
with the resolved place's canonical gazetteer coordinates (the first
`city_coords` entry in dict order whose name occurs in the lowercased
utterance) — provided the alert branch does not preempt it, i.e. the
alert guard is false or region resolution fails.  In particular
"weather in Sacramento" yields the forecast intent for Sacramento at
(38.5816, -121.4944). -/
theorem forecast_intent_carries_gazetteer_coordinates
    (u c : String) (coords : Coord)
    (hw : GroqAgent.has_weather_kw u = true)
    (hloc : GroqAgent.extract_location_from_text u =
      Option.some (c, coords))
    (hna : GroqAgent.alert_condition u = false ∨
      GroqAgent.extract_state_from_text u = Option.none) :
    GroqAgent.is_weather_query u = GroqAgent.QueryInfo.forecast c coords := by
  have hfb : GroqAgent.forecast_branch u = GroqAgent.QueryInfo.forecast c coords := by
    unfold GroqAgent.forecast_branch
    simp [hw, hloc]
  rcases hna with hna | hna
  · unfold GroqAgent.is_weather_query
    simp [hna, hfb]
  · unfold GroqAgent.is_weather_query
    rcases hc : GroqAgent.alert_condition u with _ | _
    · simp [hfb]
    · simp [hna, hfb]

/-- C7 witness: the amended theorem applied to "weather in Sacramento". -/
theorem forecast_intent_carries_gazetteer_coordinates_witness :
    GroqAgent.has_weather_kw "weather in Sacramento" = true ∧
    GroqAgent.extract_location_from_text "weather in Sacramento" =
      Option.some ("Sacramento", (385816, -1214944)) ∧
    GroqAgent.alert_condition "weather in Sacramento" = false ∧
    GroqAgent.is_weather_query "weather in Sacramento" =
      GroqAgent.QueryInfo.forecast "Sacramento" (385816, -1214944) :=
  ⟨by decide, by decide, by decide,
    forecast_intent_carries_gazetteer_coordinates "weather in Sacramento"
      "Sacramento" (385816, -1214944) (by decide) (by decide)
      (Or.inl (by decide))⟩

/-- C10: region resolution tests two-letter state codes as bare
substrings of the lowercased utterance, scanning the state table in its
fixed insertion order.  Since `("alabama", "AL")` is the first entry,
every utterance whose lowercase form contains the letter pair "al"
resolves to Alabama; consequently an alert query that names no state —
any utterance containing the word "alert" itself — classifies as an
alert intent for Alabama. -/
theorem substring_region_resolution_favors_alabama (u : String)
    (hal : strContains (pyLower u) "al" = true) :
    GroqAgent.extract_state_from_text u = Option.some "AL" ∧
    (GroqAgent.has_alert_kw u = true →
      GroqAgent.is_weather_query u = GroqAgent.QueryInfo.alert "AL") := by
  have h1 := extract_state_al u hal
  refine ⟨h1, fun ha => ?_⟩
  have hcond : GroqAgent.alert_condition u = true := by
    unfold GroqAgent.alert_condition
    simp [ha]
  unfold GroqAgent.is_weather_query
  simp [hcond, h1]

/-- C10 witness: the bare utterance "alert", which names no state,
resolves to Alabama and classifies as an alert intent for AL. -/
theorem substring_region_resolution_favors_alabama_witness :
    strContains (pyLower "alert") "al" = true ∧
    GroqAgent.has_alert_kw "alert" = true ∧
    GroqAgent.is_weather_query "alert" = GroqAgent.QueryInfo.alert "AL" :=
  ⟨by decide, by decide,
    (substring_region_resolution_favors_alabama "alert" (by decide)).2
      (by decide)⟩

end Aimcp

namespace Aimcp

/-- C8 counterexample: the gazetteer source lists "columbus" twice with
conflicting coordinates — (39.9612, -82.9988) and (32.4609, -84.9877) —
and construction neither rejects nor merges the duplicate: the built
dict silently holds the LAST-inserted value. -/
theorem duplicate_gazetteer_entry_last_wins :
    ("columbus", ((399612 : Int), (-829988 : Int))) ∈
      GroqAgent.cityCoordsSrc ∧
    ("columbus", ((324609 : Int), (-849877 : Int))) ∈
      GroqAgent.cityCoordsSrc ∧
    GroqAgent.city_coords.find? (fun kv => kv.1 = "columbus") =
      Option.some ("columbus", (324609, -849877)) := by
  refine ⟨by decide, by decide, by decide⟩

/-- C8 amended: gazetteer construction follows Python dict-literal
semantics — duplicate place names are neither rejected nor merged; for
each duplicated name ("columbus", "glendale", "springfield",
"kansas city") the last-listed entry silently wins — and the resulting
table does map each place name to exactly one entry (its keys are
pairwise distinct). -/
theorem gazetteer_one_entry_per_name_last_inserted_wins :
    (GroqAgent.city_coords.map Prod.fst).Nodup ∧
    GroqAgent.city_coords.find? (fun kv => kv.1 = "columbus") =
      Option.some ("columbus", (324609, -849877)) ∧
    GroqAgent.city_coords.find? (fun kv => kv.1 = "glendale") =
      Option.some ("glendale", (341425, -1182551)) ∧
    GroqAgent.city_coords.find? (fun kv => kv.1 = "springfield") =
      Option.some ("springfield", (397817, -896501)) ∧
    GroqAgent.city_coords.find? (fun kv => kv.1 = "kansas city") =
      Option.some ("kansas city", (391142, -946275)) :=
  ⟨mkDict_keys_nodup GroqAgent.cityCoordsSrc,
    by decide, by decide, by decide, by decide⟩

/-- C9 counterexample: in the simple agent the termination-token list
is `["quit", "exit", "bye"]`, so the literal input "q" does NOT end the
session: the loop step processes it as a normal query (reaching
classification, which yields the help text). -/
theorem simple_agent_q_does_not_quit :
    SimpleAgent.chat_loop_step gaOk gfOk "q" ≠ SimpleAgent.LoopStep.quit ∧
    SimpleAgent.chat_loop_step gaOk gfOk "q" =
      SimpleAgent.LoopStep.reply
        "❓ I can help with:\n• Weather alerts (e.g., \x27alerts for California\x27)\n• Weather forecasts (e.g., \x27weather in Sacramento\x27)" := by
  refine ⟨by decide, by decide⟩

/-- C9 amended: each of `quit`, `exit`, `bye` and `q`
(case-insensitively, after stripping) ends the Groq-agent and
smart-agent sessions before any processing; the simple agent ends only
on `quit`, `exit`, `bye` — its list omits `q`, so an input whose
stripped lowercase form is "q" is handed to `process_query` as an
ordinary utterance instead of terminating. -/
theorem session_termination_tokens (gA : String → Except String String)
    (gF : Coord → Except String String)
    (engine : List Turn → Except String String)
    (engineT : List SmartAgent.Msg → Except String SmartAgent.EngineReply)
    (engine2 : List SmartAgent.Msg → Except String String)
    (hG : List Turn) (hs : List SmartAgent.Msg) (raw : String) :
    ((["quit", "exit", "bye", "q"] : List String).contains
        (pyLower (pyStrip raw)) = true →
      GroqAgent.chat_loop_step gA gF engine hG raw =
        GroqAgent.LoopStep.quit ∧
      SmartAgent.chat_loop_step gA gF engineT engine2 hs raw =
        SmartAgent.LoopStep.quit) ∧
    ((["quit", "exit", "bye"] : List String).contains
        (pyLower (pyStrip raw)) = true →
      SimpleAgent.chat_loop_step gA gF raw = SimpleAgent.LoopStep.quit) ∧
    (pyLower (pyStrip raw) = "q" →
      SimpleAgent.chat_loop_step gA gF raw =
        SimpleAgent.LoopStep.reply
          (SimpleAgent.process_query gA gF (pyStrip raw))) := by
  refine ⟨fun h4 => ?_, fun h3 => ?_, fun hq => ?_⟩
  · have h4' : pyLower (pyStrip raw) = "quit" ∨ pyLower (pyStrip raw) = "exit" ∨
        pyLower (pyStrip raw) = "bye" ∨ pyLower (pyStrip raw) = "q" := by
      simpa using h4
    constructor
    · unfold GroqAgent.chat_loop_step
      rcases h4' with h | h | h | h <;> simp [h]
    · unfold SmartAgent.chat_loop_step
      rcases h4' with h | h | h | h <;> simp [h]
  · have h3' : pyLower (pyStrip raw) = "quit" ∨ pyLower (pyStrip raw) = "exit" ∨
        pyLower (pyStrip raw) = "bye" := by
      simpa using h3
    unfold SimpleAgent.chat_loop_step
    rcases h3' with h | h | h <;> simp [h]
  · have hne : ¬ (pyStrip raw = "") := by
      intro h0
      rw [h0] at hq
      exact absurd hq (by decide)
    unfold SimpleAgent.chat_loop_step
    simp only [hq, hne]
    simp

/-- C9 witness: the amended theorem applied to the inputs "quit" (ends
every agent) and "q" (processed, not quitting, by the simple agent). -/
theorem session_termination_tokens_witness :
    (["quit", "exit", "bye", "q"] : List String).contains
      (pyLower (pyStrip "quit")) = true ∧
    GroqAgent.chat_loop_step gaOk gfOk engChat [] "quit" =
      GroqAgent.LoopStep.quit ∧
    SimpleAgent.chat_loop_step gaOk gfOk "q" =
      SimpleAgent.LoopStep.reply
        (SimpleAgent.process_query gaOk gfOk (pyStrip "q")) :=
  ⟨by decide,
    ((session_termination_tokens gaOk gfOk engChat engSmartTool engSmart2
      [] [] "quit").1 (by decide)).1,
    (session_termination_tokens gaOk gfOk engChat engSmartTool engSmart2
      [] [] "q").2.2 (by decide)⟩

end Aimcp
